import Mathlib

/-!
Verification development for the asynchronous client communication core of the
BrawlGPT dashboard client.

The development shallowly embeds three components of the source:

* the SSE streaming reader `sendChatMessageStream`
  (frontend/src/services/api.ts);
* the player-data query coordinator `usePlayerData`
  (the search hook, with its debounce timer and abort controller);
* the notification channel manager `useWebSocket`
  (frontend/src/hooks/useWebSocket.ts).

Platform primitives (JSON.parse, fetch, timers, WebSocket events) are modelled
as explicit values or events: timers and network completions appear as events
consumed by a step function, and JSON.parse appears as a function argument
`parse : String → Option Json` (with a small concrete parser `parseJson`
covering the flat string-field objects used by the wire protocol, for concrete
witnesses).
-/

/-- JSON values, as produced by the platform JSON.parse.  Arrays are not
modelled: no code path inspected by this development reads an array value. -/
inductive Json where
  | null : Json
  | bool : Bool → Json
  | num : Int → Json
  | str : String → Json
  | obj : List (String × Json) → Json

/-- Property access `j.field` in JavaScript: `some` when the value is an
object with the field, `none` (undefined) otherwise. -/
def getField (j : Json) (key : String) : Option Json :=
  match j with
  | .obj fields =>
    match fields.find? (fun p => p.1 == key) with
    | some p => some p.2
    | none => none
  | _ => none

/-- JavaScript truthiness of a possibly-undefined value: `undefined`, `null`,
`false`, `0` and `""` are falsy, everything else truthy. -/
def truthy (v : Option Json) : Bool :=
  match v with
  | none => false
  | some .null => false
  | some (.bool b) => b
  | some (.num n) => n != 0
  | some (.str s) => s != ""
  | some (.obj _) => true

/-- The left-brace character, written by code point. -/
def lbrace : Char := Char.ofNat 123

/-- The right-brace character, written by code point. -/
def rbrace : Char := Char.ofNat 125

/-- Drop leading spaces. -/
def skipWs : List Char → List Char
  | [] => []
  | c :: rest => if c = ' ' then skipWs rest else c :: rest

/-- Scan a JSON string body up to the closing quote (no escape sequences:
none appear on this wire protocol).  Returns the string and the remainder. -/
def scanStr : List Char → Option (String × List Char)
  | [] => none
  | c :: rest =>
    if c = '"' then some ("", rest)
    else
      match scanStr rest with
      | some (s, rem) => some (c.toString ++ s, rem)
      | none => none

/-- Parse the fields of a flat JSON object of string values, starting just
after the opening brace; consumes the closing brace. -/
def parseFields : Nat → List Char → Option (List (String × Json) × List Char)
  | 0, _ => none
  | fuel + 1, cs =>
    match skipWs cs with
    | '"' :: rest =>
      match scanStr rest with
      | some (key, rest1) =>
        match skipWs rest1 with
        | ':' :: rest2 =>
          match skipWs rest2 with
          | '"' :: rest3 =>
            match scanStr rest3 with
            | some (v, rest4) =>
              match skipWs rest4 with
              | ',' :: rest5 =>
                match parseFields fuel rest5 with
                | some (fs, rem) => some ((key, Json.str v) :: fs, rem)
                | none => none
              | c :: rest5 =>
                if c = rbrace then some ([(key, Json.str v)], rest5) else none
              | [] => none
            | none => none
          | _ => none
        | _ => none
      | none => none
    | _ => none

/-- A model of the platform JSON.parse restricted to the shapes this wire
protocol carries: a flat object of string-valued fields, or a bare string.
Inputs outside this fragment (in particular every truncated line produced by
splitting a frame mid-line) yield `none`, as JSON.parse would throw. -/
def parseJson (s : String) : Option Json :=
  match skipWs s.toList with
  | [] => none
  | c :: rest =>
    if c = lbrace then
      match skipWs rest with
      | d :: rest1 =>
        if d = rbrace then
          if skipWs rest1 = [] then some (Json.obj []) else none
        else
          match parseFields (rest.length + 1) rest with
          | some (fs, rem) =>
            if skipWs rem = [] then some (Json.obj fs) else none
          | none => none
      | [] => none
    else if c = '"' then
      match scanStr rest with
      | some (s, rem) => if skipWs rem = [] then some (Json.str s) else none
      | none => none
    else none

/-- Sanity of the JSON.parse model: a flat object parses to its fields, and
a line truncated mid-string is rejected, as JSON.parse would throw on it. -/
theorem parseJson_sanity :
    parseJson "\x7b\"content\":\"hi\"\x7d" = some (Json.obj [("content", Json.str "hi")]) ∧
    parseJson "\x7b\"cont" = none :=
  ⟨rfl, rfl⟩

/-!
## StreamingResponseReader: `sendChatMessageStream` (services/api.ts)

The reader issues one POST; on a non-2xx response it throws an `ApiError`,
which the surrounding catch reports through `onError` and rethrows.  On a 2xx
response it reads transport chunks, decodes each chunk independently, splits
it on newlines, and for every line starting with "data: " parses the rest as
JSON inside a try/catch local to the line:

  try { const data = JSON.parse(line.slice(6));
        if (data.error) { throw new Error(data.error); }
        if (data.content) { onChunk(data.content); } }
  catch (parseError) { console.error(...); }

Note that the `throw new Error(data.error)` statement is inside the same try
block, so it is caught by `catch (parseError)` and only logged; reading then
continues with the next line.  When `reader.read()` reports `done`,
`onComplete` fires.
-/

/-- The error value thrown by the api.ts `ApiError` class: a message, an HTTP
status code, and the JavaScript `Error.name` (always "ApiError" for this
class). -/
structure ApiErr where
  message : String
  statusCode : Nat
  name : String
deriving DecidableEq

/-- Helper of `jsSplitNewlines`: walk the characters, accumulating the
current segment reversed. -/
def splitNewlinesGo : List Char → List Char → List String
  | [], acc => [String.mk acc.reverse]
  | c :: rest, acc =>
    if c = '\n' then String.mk acc.reverse :: splitNewlinesGo rest []
    else splitNewlinesGo rest (c :: acc)

/-- Model of the JavaScript `chunk.split('\n')`, defined structurally over
the character list. -/
def jsSplitNewlines (s : String) : List String :=
  splitNewlinesGo s.data []

/-- Model of the JavaScript `s.startsWith(p)` for ASCII strings. -/
def jsStartsWith (p s : String) : Bool :=
  p.data.isPrefixOf s.data

/-- Model of the JavaScript `s.slice(n)` for ASCII strings. -/
def jsSlice (n : Nat) (s : String) : String :=
  String.mk (s.data.drop n)

/-- Processing of one decoded line of the SSE body by the loop of
`sendChatMessageStream`: `some v` when the line causes `onChunk(v)`, `none`
when the line is skipped.  A line is skipped when it lacks the "data: "
prefix, when JSON.parse throws, when the parsed object has a truthy `error`
field (the deliberate `throw` is caught by the same line-local catch and only
logged), or when `content` is falsy. -/
def lineEmit (parse : String → Option Json) (line : String) : Option Json :=
  if jsStartsWith "data: " line then
    match parse (jsSlice 6 line) with
    | none => none
    | some j =>
      if truthy (getField j "error") then none
      else if truthy (getField j "content") then getField j "content"
      else none
  else none

/-- The `onChunk` emissions produced by one transport chunk: the chunk is
decoded on its own (`decoder.decode(value)`) and split on newlines with no
carry-over of a partial trailing line. -/
def chunkEmits (parse : String → Option Json) (chunk : String) : List Json :=
  (jsSplitNewlines chunk).filterMap (lineEmit parse)

/-- The `onChunk` emissions of a whole 2xx exchange whose body arrives as the
given list of transport chunks, in order. -/
def streamEmits (parse : String → Option Json) (chunks : List String) : List Json :=
  (chunks.map (chunkEmits parse)).flatten

/-- `response.ok`: status in the 2xx range. -/
def respOk (status : Nat) : Bool := 200 ≤ status && status < 300

/-- The externally observable outcome of one `sendChatMessageStream`
invocation: the `onChunk` arguments in order, how many times `onComplete`
fired, the `onError` arguments in order, and the error rethrown to the
caller (the promise rejection), if any. -/
structure StreamOutcome where
  emitted : List Json
  completeCalls : Nat
  errorCalls : List ApiErr
  thrown : Option ApiErr

/-- Model of `sendChatMessageStream` applied to a response with the given
HTTP status and body chunks.  On non-2xx it throws
`ApiError("Failed to start streaming", status)`; the function-level catch
passes that error to `onError` and rethrows it.  On 2xx it emits per
`streamEmits` and fires `onComplete` once at end of body. -/
def sendChatMessageStream (parse : String → Option Json) (status : Nat)
    (chunks : List String) : StreamOutcome :=
  if respOk status then
    { emitted := streamEmits parse chunks
      completeCalls := 1
      errorCalls := []
      thrown := none }
  else
    let e : ApiErr := { message := "Failed to start streaming", statusCode := status, name := "ApiError" }
    { emitted := []
      completeCalls := 0
      errorCalls := [e]
      thrown := some e }

/-!
## QueryCoordinator: the `usePlayerData` hook (search / debounce / abort)

The hook is single-threaded and event-driven.  We model it as a step function
over an explicit world: the React state, the three refs (debounce timer,
abort controller, last successful tag), the set of in-flight
`getPlayerAnalysis` calls, and a log of dispatched network calls.  Events are
the suspension points of the source: a `search(tag)` invocation (its
synchronous phase), the debounce timer firing (which creates a fresh
AbortController and dispatches `getPlayerAnalysis(cleanTag)`), and the
resolution of an in-flight call with a success value or an `ApiError`.

A faithfulness note that matters below: `search` calls
`abortControllerRef.current.abort()`, but `getPlayerAnalysis` takes no signal
argument and its `fetch` is issued without one (services/api.ts lines 50-55),
so aborting a controller has no effect on the pending call; the model records
the abort in `aborted` and nothing else.  Likewise the continuation checks
`err.name === "AbortError"`, but every error `getPlayerAnalysis` throws is an
`ApiError` with name "ApiError", so the branch is kept but cannot be taken by
errors arising from the network layer of this repository.
-/

/-- The payload of a successful `getPlayerAnalysis` response; the three parts
are opaque to the hook and modelled as strings. -/
structure AnalysisData where
  player : String
  battles : String
  insights : String
deriving DecidableEq

/-- The React state of `usePlayerData`. -/
structure PlayerState where
  player : Option String
  battles : Option String
  insights : Option String
  loading : Bool
  error : Option String
deriving DecidableEq

/-- The world of the hook: React state, refs, in-flight calls, and a log of
the network calls dispatched (arguments to `getPlayerAnalysis`, in order). -/
structure PDWorld where
  st : PlayerState
  debounce : Option (Nat × String)
  ctrl : Option Nat
  aborted : List Nat
  lastTag : Option String
  inFlight : List (Nat × String)
  dispatched : List String
  nextId : Nat
deriving DecidableEq

/-- Events consumed by the hook: a `search` invocation, the pending debounce
timer firing, and the resolution of the in-flight call with the given id. -/
inductive PDEvent where
  | search : String → PDEvent
  | fireTimer : PDEvent
  | resolveOk : Nat → AnalysisData → PDEvent
  | resolveErr : Nat → ApiErr → PDEvent

/-- Model of the JavaScript `String.prototype.trim`: drop leading and
trailing whitespace.  (Defined structurally over the character list so that
concrete inputs evaluate inside the kernel.) -/
def jsTrim (s : String) : String :=
  String.mk (((s.data.dropWhile Char.isWhitespace).reverse.dropWhile Char.isWhitespace).reverse)

/-- The error-message classification of the catch block of `search`
(lines 108-125 of the hook): ApiError messages for common status codes are
replaced by user-friendly text, otherwise the message of the error is used. -/
def classifyError (e : ApiErr) : String :=
  if e.statusCode = 404 then "Player not found. Please check the tag and try again."
  else if e.statusCode = 429 then "Too many requests. Please wait a moment and try again."
  else if e.statusCode = 400 then "Invalid player tag format."
  else if e.statusCode = 0 then "Unable to connect to server. Please check your connection."
  else e.message

/-- One step of the hook.  `search`: clear the pending debounce timer, abort
the current controller (recorded only: the signal is not wired to fetch),
validate the trimmed input, then either set the validation error or set
loading and start a new debounce timer carrying the trimmed tag.
`fireTimer`: create a fresh controller and dispatch the network call.
`resolveOk`/`resolveErr`: the continuation of the awaited call. -/
def pdStep (w : PDWorld) (ev : PDEvent) : PDWorld :=
  match ev with
  | .search tag =>
    let w1 := { w with debounce := none }
    let w2 :=
      match w1.ctrl with
      | some c => { w1 with aborted := c :: w1.aborted }
      | none => w1
    let cleanTag := jsTrim tag
    if cleanTag = "" then
      { w2 with st := { w2.st with error := some "Please enter a player tag", loading := false } }
    else
      { w2 with
          st := { w2.st with loading := true, error := none }
          debounce := some (w2.nextId, cleanTag)
          nextId := w2.nextId + 1 }
  | .fireTimer =>
    match w.debounce with
    | none => w
    | some (_, tag) =>
      { w with
          debounce := none
          ctrl := some w.nextId
          inFlight := (w.nextId, tag) :: w.inFlight
          dispatched := w.dispatched ++ [tag]
          nextId := w.nextId + 1 }
  | .resolveOk id data =>
    match w.inFlight.find? (fun p => p.1 == id) with
    | none => w
    | some (_, tag) =>
      { w with
          inFlight := w.inFlight.filter (fun p => p.1 != id)
          lastTag := some tag
          st := { player := some data.player, battles := some data.battles,
                  insights := some data.insights, loading := false, error := none } }
  | .resolveErr id e =>
    match w.inFlight.find? (fun p => p.1 == id) with
    | none => w
    | some _ =>
      let w1 := { w with inFlight := w.inFlight.filter (fun p => p.1 != id) }
      if e.name = "AbortError" then w1
      else
        { w1 with
            st := { player := none, battles := none, insights := none,
                    loading := false, error := some (classifyError e) } }

/-- The initial world of a freshly mounted hook. -/
def pdInit : PDWorld :=
  { st := { player := none, battles := none, insights := none, loading := false, error := none }
    debounce := none
    ctrl := none
    aborted := []
    lastTag := none
    inFlight := []
    dispatched := []
    nextId := 0 }

/-- Run a sequence of events from the initial world. -/
def runPD (evs : List PDEvent) : PDWorld :=
  evs.foldl pdStep pdInit

/-!
## ConnectionManager: the `useWebSocket` hook

Two aspects are embedded separately, both from
frontend/src/hooks/useWebSocket.ts:

* the `onmessage` handler and the notification feed (`processFrame`,
  `insertNotification`), and
* the connection lifecycle (connect, onopen, onclose, the unmount cleanup,
  and the 5-second reconnect timer) as a step function over a world
  (`wsStep`).
-/

/-- `notification.type === 'connection'` in JavaScript: true exactly when the
parsed value has a `type` field holding the string "connection". -/
def isConnectionType (j : Json) : Bool :=
  match getField j "type" with
  | some (.str s) => s == "connection"
  | _ => false

/-- The feed update of `onmessage`:
`setNotifications((prev) => [notification, ...prev].slice(0, 50))`. -/
def insertNotification (n : Json) (feed : List Json) : List Json :=
  (n :: feed).take 50

/-- The `onmessage` handler applied to one inbound frame: returns the feed
after the frame and whether a feed write (a `setNotifications` call) was
performed.  A literal "pong" payload returns early; a JSON.parse failure is
caught and logged; a parsed value whose `type` is "connection" returns early;
every other parsed value is prepended with the 50-entry cap. -/
def processFrame (parse : String → Option Json) (data : String)
    (feed : List Json) : List Json × Bool :=
  if data = "pong" then (feed, false)
  else
    match parse data with
    | none => (feed, false)
    | some n =>
      if isConnectionType n then (feed, false)
      else (insertNotification n feed, true)

/-- Fold `processFrame` over a sequence of inbound frames. -/
def runFrames (parse : String → Option Json) (frames : List String)
    (feed : List Json) : List Json :=
  frames.foldl (fun f d => (processFrame parse d f).1) feed

/-- The feed after processing a sequence of already-parsed notifications. -/
def feedAfter (ns : List Json) (feed : List Json) : List Json :=
  ns.foldl (fun f n => insertNotification n f) feed

/-- The connection-lifecycle world of `useWebSocket`: the `ws.current` ref
(holding the id of the current socket, if any), the `isConnected` state, the
two timer refs, a count of sockets created so far (each `new WebSocket` call
increments it and yields the next id), and a counter for fresh timer ids. -/
structure WsWorld where
  wsCur : Option Nat
  isConnected : Bool
  pingInterval : Option Nat
  reconnectTimeout : Option Nat
  socketsCreated : Nat
  nextTimer : Nat
deriving DecidableEq

/-- Lifecycle events of the hook: a `connect()` invocation (the mount
effect), the open and close events delivered by the browser for the socket,
the unmount cleanup, and the 5-second reconnect timer firing. -/
inductive WsEvent where
  | connect : WsEvent
  | openEvent : WsEvent
  | closeEvent : WsEvent
  | cleanup : WsEvent
  | reconnectFire : WsEvent

/-- One lifecycle step, translated from useWebSocket.ts.

`connect`: returns early when `userId` is null, otherwise creates a socket
and stores it in `ws.current`.
`openEvent` (the `onopen` handler): sets `isConnected` and starts the 30 s
ping interval.
`closeEvent` (the `onclose` handler): clears `isConnected`, clears the ping
interval, and unconditionally schedules a reconnect timer that will call
`connect()` after 5 s — there is no check that the hook has been torn down.
`cleanup` (the unmount effect teardown): closes the current socket (its close
event is delivered later by the browser as a separate `closeEvent`), nulls
`ws.current`, and clears both timers that exist at that moment.
`reconnectFire`: the scheduled timer fires (only possible while it has not
been cleared) and invokes `connect()`. -/
def wsStep (userId : Option String) (w : WsWorld) (ev : WsEvent) : WsWorld :=
  match ev with
  | .connect =>
    match userId with
    | none => w
    | some _ => { w with wsCur := some w.socketsCreated, socketsCreated := w.socketsCreated + 1 }
  | .openEvent =>
    { w with isConnected := true, pingInterval := some w.nextTimer, nextTimer := w.nextTimer + 1 }
  | .closeEvent =>
    { w with
        isConnected := false
        pingInterval := none
        reconnectTimeout := some w.nextTimer
        nextTimer := w.nextTimer + 1 }
  | .cleanup =>
    { w with wsCur := none, reconnectTimeout := none, pingInterval := none }
  | .reconnectFire =>
    match w.reconnectTimeout with
    | none => w
    | some _ =>
      let w1 := { w with reconnectTimeout := none }
      match userId with
      | none => w1
      | some _ =>
        { w1 with wsCur := some w1.socketsCreated, socketsCreated := w1.socketsCreated + 1 }

/-- The world of a freshly mounted `useWebSocket` hook. -/
def wsInit : WsWorld :=
  { wsCur := none
    isConnected := false
    pingInterval := none
    reconnectTimeout := none
    socketsCreated := 0
    nextTimer := 0 }

/-- Run a sequence of lifecycle events from the initial world. -/
def runWs (userId : Option String) (evs : List WsEvent) : WsWorld :=
  evs.foldl (wsStep userId) wsInit

/-!
## Theorems about the QueryCoordinator (`usePlayerData`)
-/

/-- The synchronous phase of `search` never touches the dispatch log or the
in-flight set, whatever the input. -/
theorem pd_search_frame (w : PDWorld) (tag : String) :
    (pdStep w (.search tag)).dispatched = w.dispatched ∧
    (pdStep w (.search tag)).inFlight = w.inFlight := by
  cases hc : w.ctrl <;> by_cases h : jsTrim tag = "" <;> simp [pdStep, hc, h]

/-- A `search` with non-empty trimmed input leaves a pending debounce timer
carrying exactly the trimmed input. -/
theorem pd_search_debounce (w : PDWorld) (tag : String) (h : jsTrim tag ≠ "") :
    ∃ k, (pdStep w (.search tag)).debounce = some (k, jsTrim tag) := by
  refine ⟨w.nextId, ?_⟩
  cases hc : w.ctrl <;> simp [pdStep, hc, h]

/-- Folding a non-empty burst of `search` invocations (no timer fires in
between) dispatches nothing, keeps the in-flight set, and leaves one pending
debounce timer carrying the trimmed input of the last invocation. -/
theorem pd_search_fold (tags : List String) (w : PDWorld) (h1 : tags ≠ [])
    (h2 : ∀ t ∈ tags, jsTrim t ≠ "") :
    ((tags.map PDEvent.search).foldl pdStep w).dispatched = w.dispatched ∧
    ((tags.map PDEvent.search).foldl pdStep w).inFlight = w.inFlight ∧
    ∃ k, ((tags.map PDEvent.search).foldl pdStep w).debounce
      = some (k, jsTrim (tags.getLast h1)) := by
  induction tags generalizing w with
  | nil => exact absurd rfl h1
  | cons t ts ih =>
    have ht : jsTrim t ≠ "" := h2 t (by simp)
    cases ts with
    | nil =>
      refine ⟨(pd_search_frame w t).1, (pd_search_frame w t).2, ?_⟩
      simpa using pd_search_debounce w t ht
    | cons t2 ts2 =>
      have h2r : ∀ s ∈ t2 :: ts2, jsTrim s ≠ "" := fun s hs => h2 s (by simp [hs])
      obtain ⟨hd, hi, k, hdb⟩ := ih (pdStep w (.search t)) (by simp) h2r
      refine ⟨?_, ?_, ⟨k, ?_⟩⟩
      · rw [List.map_cons, List.foldl_cons]
        exact hd.trans (pd_search_frame w t).1
      · rw [List.map_cons, List.foldl_cons]
        exact hi.trans (pd_search_frame w t).2
      · rw [List.map_cons, List.foldl_cons, List.getLast_cons_cons]
        exact hdb

/-- C8: within one debounce window (every call issued before the timer of its
predecessor fires), a burst of `search` invocations with non-empty trimmed
inputs dispatches exactly one network call, carrying the trimmed input of the
last invocation; each `search` cancels the pending timer of its predecessor,
so only the final timer survives to fire. -/
theorem debounce_collapse (tags : List String) (h1 : tags ≠ [])
    (h2 : ∀ t ∈ tags, jsTrim t ≠ "") :
    (runPD (tags.map PDEvent.search ++ [PDEvent.fireTimer])).dispatched
      = [jsTrim (tags.getLast h1)] := by
  obtain ⟨hd, hi, k, hdb⟩ := pd_search_fold tags pdInit h1 h2
  unfold runPD
  rw [List.foldl_append, List.foldl_cons, List.foldl_nil]
  simp only [pdStep]
  rw [hdb]
  simp only []
  rw [hd]
  rfl

/-- Witness for C8: the burst "a", "ab", "abc" dispatches exactly the one
call for "abc". -/
theorem debounce_collapse_witness :
    (runPD ((["a", "ab", "abc"].map PDEvent.search) ++ [PDEvent.fireTimer])).dispatched
      = ["abc"] := by
  have h := debounce_collapse ["a", "ab", "abc"] (by decide) (by decide)
  exact h.trans (by decide)

/-- C9: a `search` whose input trims to empty sets the fixed validation
message, clears `loading`, starts no debounce timer, dispatches nothing, and
leaves the in-flight set unchanged, from any state of the hook. -/
theorem search_empty_input_rejected (w : PDWorld) (tag : String)
    (h : jsTrim tag = "") :
    (pdStep w (.search tag)).st.error = some "Please enter a player tag" ∧
    (pdStep w (.search tag)).st.loading = false ∧
    (pdStep w (.search tag)).debounce = none ∧
    (pdStep w (.search tag)).dispatched = w.dispatched ∧
    (pdStep w (.search tag)).inFlight = w.inFlight := by
  cases hc : w.ctrl <;> simp [pdStep, hc, h]

/-- Witness for C9: `search("   ")` from the initial world. -/
theorem search_empty_input_rejected_witness :
    (pdStep pdInit (.search "   ")).st.error = some "Please enter a player tag" ∧
    (pdStep pdInit (.search "   ")).st.loading = false ∧
    (pdStep pdInit (.search "   ")).debounce = none ∧
    (pdStep pdInit (.search "   ")).dispatched = pdInit.dispatched ∧
    (pdStep pdInit (.search "   ")).inFlight = pdInit.inFlight :=
  search_empty_input_rejected pdInit "   " (by decide)

/-- C10: the synchronous phase of a `search` with non-empty trimmed input
preserves `player`, `battles` and `insights`, sets `loading`, clears `error`,
and the later firing of the debounce timer changes no React state either: the
previous result stays visible until the new call resolves. -/
theorem search_sync_preserves_result (w : PDWorld) (tag : String)
    (h : jsTrim tag ≠ "") :
    (pdStep w (.search tag)).st.player = w.st.player ∧
    (pdStep w (.search tag)).st.battles = w.st.battles ∧
    (pdStep w (.search tag)).st.insights = w.st.insights ∧
    (pdStep w (.search tag)).st.loading = true ∧
    (pdStep w (.search tag)).st.error = none ∧
    (pdStep (pdStep w (.search tag)) .fireTimer).st = (pdStep w (.search tag)).st := by
  cases hc : w.ctrl <;> simp [pdStep, hc, h]

/-- Witness for C10: `search("abc")` from a world holding a previous result. -/
theorem search_sync_preserves_result_witness :
    (pdStep pdInit (.search "abc")).st.player = pdInit.st.player ∧
    (pdStep pdInit (.search "abc")).st.battles = pdInit.st.battles ∧
    (pdStep pdInit (.search "abc")).st.insights = pdInit.st.insights ∧
    (pdStep pdInit (.search "abc")).st.loading = true ∧
    (pdStep pdInit (.search "abc")).st.error = none ∧
    (pdStep (pdStep pdInit (.search "abc")) .fireTimer).st
      = (pdStep pdInit (.search "abc")).st :=
  search_sync_preserves_result pdInit "abc" (by decide)

/-- A response for the superseded tag "x". -/
def xData : AnalysisData := { player := "PX", battles := "BX", insights := "IX" }

/-- A response for the newer tag "y". -/
def yData : AnalysisData := { player := "PY", battles := "BY", insights := "IY" }

/-- `search("x")`; the timer of "x" fires and dispatches its call (id 1);
`search("y")` aborts the controller of "x" (recorded, but the signal is not
wired to the fetch); the timer of "y" fires and dispatches its call (id 3);
the call of "y" resolves first, then the call of "x" resolves. -/
def c1Trace : List PDEvent :=
  [.search "x", .fireTimer, .search "y", .fireTimer,
   .resolveOk 3 yData, .resolveOk 1 xData]

/-- The same two searches where only the outcome of "y" is applied. -/
def c1TraceYOnly : List PDEvent :=
  [.search "y", .fireTimer, .resolveOk 1 yData]

/-- C1: the code violates last-write-wins.  In `c1Trace` the controller of
the superseded call was aborted (1 is recorded in `aborted`), yet because
`getPlayerAnalysis` receives no abort signal the superseded continuation
still runs: the final state holds the result and tag of "x", not the outcome
of "y" alone as the claim requires. -/
theorem superseded_fetch_still_mutates_state :
    (1 : Nat) ∈ (runPD c1Trace).aborted ∧
    (runPD c1Trace).st.player = some "PX" ∧
    (runPD c1Trace).st.battles = some "BX" ∧
    (runPD c1Trace).st.insights = some "IX" ∧
    (runPD c1Trace).lastTag = some "x" ∧
    (runPD c1TraceYOnly).st.player = some "PY" ∧
    (runPD c1Trace).st ≠ (runPD c1TraceYOnly).st := by decide

/-!
## Theorems about the StreamingResponseReader (`sendChatMessageStream`)
-/

/-- A one-line SSE body carrying the content "hi". -/
def c2Body : String := "data: \x7b\"content\":\"hi\"\x7d\n"

/-- C2: the emissions are not invariant under transport fragmentation.  The
two chunk lists below carry the same body bytes; delivered as one chunk the
reader emits the content "hi", but delivered split mid-line it emits nothing,
because each chunk is decoded and split on newlines with no carry-over of a
partial trailing line. -/
theorem sse_fragmentation_changes_emissions :
    "data: \x7b\"cont" ++ "ent\":\"hi\"\x7d\n" = c2Body ∧
    streamEmits parseJson [c2Body] = [Json.str "hi"] ∧
    streamEmits parseJson ["data: \x7b\"cont", "ent\":\"hi\"\x7d\n"] = [] :=
  ⟨rfl, rfl, rfl⟩

/-- A body whose first data line carries an `error` payload and whose second
carries a content payload. -/
def c3Body : String := "data: \x7b\"error\":\"boom\"\x7d\ndata: \x7b\"content\":\"hi\"\x7d\n"

/-- C3: an `error` payload does not stop the stream.  The `throw` for the
error field is caught by the line-local `catch (parseError)` and only logged:
the reader keeps reading, emits the later content "hi", never calls
`onError`, and calls `onComplete` — contradicting the claim that it stops,
calls `onError` once and skips `onComplete`. -/
theorem sse_error_payload_swallowed :
    (sendChatMessageStream parseJson 200 [c3Body]).emitted = [Json.str "hi"] ∧
    (sendChatMessageStream parseJson 200 [c3Body]).errorCalls = [] ∧
    (sendChatMessageStream parseJson 200 [c3Body]).completeCalls = 1 ∧
    (sendChatMessageStream parseJson 200 [c3Body]).thrown = none :=
  ⟨rfl, rfl, rfl, rfl⟩

/-- Counterexample to C4 as stated: on a non-2xx response the reader does
not only report through `onError` — it also rethrows the `ApiError`, so the
promise returned to the caller rejects. -/
theorem stream_nonok_throws_counterexample :
    (sendChatMessageStream parseJson 500 []).errorCalls.length = 1 ∧
    (sendChatMessageStream parseJson 500 []).thrown ≠ none := by decide

/-- C4 (amended): for every non-2xx response, `onError` is invoked exactly
once with the descriptive `ApiError("Failed to start streaming", status)`,
no chunk is emitted, `onComplete` never fires — and additionally the same
error is rethrown to the caller, so the returned promise rejects. -/
theorem stream_nonok_amended (parse : String → Option Json) (status : Nat)
    (chunks : List String) (h : respOk status = false) :
    (sendChatMessageStream parse status chunks).errorCalls
      = [{ message := "Failed to start streaming", statusCode := status, name := "ApiError" }] ∧
    (sendChatMessageStream parse status chunks).emitted = [] ∧
    (sendChatMessageStream parse status chunks).completeCalls = 0 ∧
    (sendChatMessageStream parse status chunks).thrown
      = some { message := "Failed to start streaming", statusCode := status, name := "ApiError" } := by
  simp [sendChatMessageStream, h]

/-- Witness for C4 (amended): a 500 response. -/
theorem stream_nonok_amended_witness :
    (sendChatMessageStream parseJson 500 []).errorCalls
      = [{ message := "Failed to start streaming", statusCode := 500, name := "ApiError" }] ∧
    (sendChatMessageStream parseJson 500 []).emitted = [] ∧
    (sendChatMessageStream parseJson 500 []).completeCalls = 0 ∧
    (sendChatMessageStream parseJson 500 []).thrown
      = some { message := "Failed to start streaming", statusCode := 500, name := "ApiError" } :=
  stream_nonok_amended parseJson 500 [] (by decide)

/-!
## Theorems about the ConnectionManager (`useWebSocket`)
-/

/-- C5: teardown does not silence the torn-down channel.  After the unmount
cleanup both timer refs are cleared, but the close event the browser then
delivers for the closed socket runs the unguarded `onclose` handler: it
schedules a fresh 5-second reconnect timer, and when that timer fires
`connect()` opens a second socket — contradicting the claim that no timer
remains pending and no reconnect is ever initiated after teardown. -/
theorem ws_teardown_reconnect_evaluation :
    (runWs (some "u42") [.connect, .openEvent, .cleanup]).reconnectTimeout = none ∧
    (runWs (some "u42") [.connect, .openEvent, .cleanup]).pingInterval = none ∧
    (runWs (some "u42") [.connect, .openEvent, .cleanup, .closeEvent]).reconnectTimeout ≠ none ∧
    (runWs (some "u42")
      [.connect, .openEvent, .cleanup, .closeEvent, .reconnectFire]).socketsCreated = 2 := by
  decide

/-- Prepending into a capped list commutes with a cap already applied to the
tail of the append. -/
theorem take_append_take {α : Type} (k : Nat) (l m : List α) :
    (l ++ m.take k).take k = (l ++ m).take k := by
  rw [List.take_append_eq_append_take, List.take_append_eq_append_take,
    List.take_take, Nat.min_eq_left (Nat.sub_le k l.length)]

/-- The feed after a burst of notifications is the newest-first cap of the
whole history. -/
theorem feedAfter_eq_take (ns f0 : List Json) (h : f0.length ≤ 50) :
    feedAfter ns f0 = (ns.reverse ++ f0).take 50 := by
  induction ns generalizing f0 with
  | nil => simp [feedAfter, List.take_of_length_le h]
  | cons n rest ih =>
    have h1 : (insertNotification n f0).length ≤ 50 := by
      simp [insertNotification]
    have step : feedAfter (n :: rest) f0 = feedAfter rest (insertNotification n f0) := rfl
    rw [step, ih (insertNotification n f0) h1, insertNotification,
      take_append_take, List.reverse_cons, List.append_assoc]
    rfl

/-- C6: starting from any reachable feed (at most 50 entries), processing any
burst of produced notifications leaves exactly the newest-first cap of the
whole history: the feed equals the most recent `min(50, total)` entries, so
it never exceeds 50; and an insertion into a feed at capacity evicts exactly
the oldest entry. -/
theorem feed_capacity (f0 ns : List Json) (h : f0.length ≤ 50) :
    feedAfter ns f0 = (ns.reverse ++ f0).take 50 ∧
    (feedAfter ns f0).length ≤ 50 ∧
    ∀ (n : Json) (f : List Json), f.length = 50 →
      insertNotification n f = n :: f.dropLast := by
  refine ⟨feedAfter_eq_take ns f0 h, ?_, ?_⟩
  · rw [feedAfter_eq_take ns f0 h]
    simp [List.length_take]
  · intro n f hf
    rw [insertNotification, List.take_succ_cons, List.dropLast_eq_take, hf]

/-- Witness for C6: one notification into an empty feed. -/
theorem feed_capacity_witness :
    feedAfter [Json.null] [] = (([Json.null] : List Json).reverse ++ []).take 50 ∧
    (feedAfter [Json.null] ([] : List Json)).length ≤ 50 ∧
    ∀ (n : Json) (f : List Json), f.length = 50 →
      insertNotification n f = n :: f.dropLast :=
  feed_capacity [] [Json.null] (by decide)

/-- The inbound frame of the example scenario of the spec. -/
def milestoneFrame : String :=
  "\x7b\"type\":\"milestone\",\"achievement\":\"10 wins\",\"brawler\":\"Colt\",\"timestamp\":\"2024-01-01T00:00:00Z\"\x7d"

/-- The notification value the example scenario leaves in the feed. -/
def milestoneNotification : Json :=
  Json.obj [("type", Json.str "milestone"), ("achievement", Json.str "10 wins"),
    ("brawler", Json.str "Colt"), ("timestamp", Json.str "2024-01-01T00:00:00Z")]

/-- C7: a frame performs a feed write exactly when its payload is not the
literal "pong", parses as JSON, and the parsed `type` is not "connection";
a frame that performs no write leaves the feed value unchanged (so it never
blocks later frames, which see the same feed); and the example scenario —
"pong", a connection handshake, then a milestone — leaves exactly the
milestone in the feed. -/
theorem frame_filtering (parse : String → Option Json) (data : String)
    (feed : List Json) :
    ((processFrame parse data feed).2 = true ↔
      data ≠ "pong" ∧ ∃ n, parse data = some n ∧ isConnectionType n = false) ∧
    ((processFrame parse data feed).2 = false →
      processFrame parse data feed = (feed, false)) ∧
    runFrames parseJson ["pong", "\x7b\"type\":\"connection\"\x7d", milestoneFrame] []
      = [milestoneNotification] := by
  refine ⟨?_, ?_, by rfl⟩
  · by_cases hp : data = "pong"
    · simp [processFrame, hp]
    · cases hn : parse data with
      | none => simp [processFrame, hp, hn]
      | some n =>
        by_cases hc : isConnectionType n <;> simp [processFrame, hp, hn, hc]
  · intro h
    by_cases hp : data = "pong"
    · simp [processFrame, hp]
    · cases hn : parse data with
      | none => simp [processFrame, hp, hn]
      | some n =>
        by_cases hc : isConnectionType n
        · simp [processFrame, hp, hn, hc]
        · simp [processFrame, hp, hn, hc] at h
